import Mathlib

/-!
Verification of the VRM-API-lookup extraction core.

The definitions below are a shallow embedding of the Python extraction
logic of the repository (`optimized_scraper.py`, `fast_api_scraper.py`,
`selenium_scraper.py`, `data_extractor.py`, `enhanced_scraper.py`,
`utils.py`, `api_response_formatter.py`).  Python strings are modeled as
Lean `String`s (operating on their `List Char` data), Python `dict`
records as Lean structures with `Option` fields (absence of a key is
`none`), and the regular expressions actually used by the code as
hand-rolled deterministic matchers that are equivalent to the Python
patterns on the character classes involved.
-/

namespace VRM

/-- Python's whitespace class for `str.strip` / regex `\s` (ASCII part). -/
def pyIsSpace (c : Char) : Bool :=
  c = ' ' || c = '\t' || c = '\n' || c = '\r' || c = '\x0b' || c = '\x0c'

/-- Regex `\w` (ASCII part): letters, digits, underscore. -/
def isWordChar (c : Char) : Bool :=
  c.isAlphanum || c = '_'

/-- `needle in hay` for Python strings: substring containment on char lists. -/
def containsSub (needle : List Char) : List Char → Bool
  | [] => needle.isEmpty
  | c :: t => needle.isPrefixOf (c :: t) || containsSub needle t

/-- Python `needle in hay`. -/
def pyContains (hay needle : String) : Bool :=
  containsSub needle.data hay.data

/-- Python `s.lower()` (ASCII). -/
def pyLower (s : String) : String :=
  String.mk (s.data.map Char.toLower)

/-- Python `s.upper()` (ASCII). -/
def pyUpper (s : String) : String :=
  String.mk (s.data.map Char.toUpper)

/-- Strip leading and trailing whitespace from a char list. -/
def pyStripL (cs : List Char) : List Char :=
  ((cs.dropWhile pyIsSpace).reverse.dropWhile pyIsSpace).reverse

/-- Python `s.strip()`. -/
def pyStrip (s : String) : String :=
  String.mk (pyStripL s.data)

/-- Python `s.startswith(p)`. -/
def pyStartsWith (s p : String) : Bool :=
  p.data.isPrefixOf s.data

/-- One step of Python `s.replace(pat, rep)` with a fuel argument bounding
the number of characters consumed (fuel = length of the subject suffices,
since each step consumes at least one character when `pat` is nonempty). -/
def pyReplaceGo (pat rep : List Char) : Nat → List Char → List Char
  | _, [] => []
  | 0, cs => cs
  | Nat.succ f, c :: t =>
    if pat.isPrefixOf (c :: t) then
      rep ++ pyReplaceGo pat rep f (List.drop pat.length (c :: t))
    else
      c :: pyReplaceGo pat rep f t

/-- Python `s.replace(pat, rep)` (for nonempty `pat`, as used by the code). -/
def pyReplace (s pat rep : String) : String :=
  String.mk (pyReplaceGo pat.data rep.data s.data.length s.data)

/-- Python `s.split('\n')` on char lists (keeps empty pieces). -/
def splitNlGo (cur : List Char) : List Char → List (List Char)
  | [] => [cur.reverse]
  | c :: t => if c = '\n' then cur.reverse :: splitNlGo [] t else splitNlGo (c :: cur) t

/-- Python `s.split('\n')`. -/
def pySplitNl (s : String) : List String :=
  (splitNlGo [] s.data).map String.mk

/-- Python `s.split()` (split on whitespace runs, dropping empty words). -/
def pyWordsGo (cur : List Char) : List Char → List (List Char)
  | [] => if cur.isEmpty then [] else [cur.reverse]
  | c :: t =>
    if pyIsSpace c then
      if cur.isEmpty then pyWordsGo [] t else cur.reverse :: pyWordsGo [] t
    else
      pyWordsGo (c :: cur) t

/-- Python `s.split()` with no separator argument. -/
def pySplitWs (s : String) : List String :=
  (pyWordsGo [] s.data).map String.mk

/-- Python `s.isupper()`: at least one cased character and every cased
character uppercase (ASCII: cased = alphabetic). -/
def pyIsUpperStr (s : String) : Bool :=
  s.data.any Char.isAlpha && s.data.all (fun c => !c.isAlpha || c.isUpper)

/-- Python truthiness of an optional string value (`None` and `''` are falsy). -/
def truthy (o : Option String) : Bool :=
  match o with
  | none => false
  | some s => !s.isEmpty

/-- Python truthiness of an optional integer value (`None` and `0` are falsy). -/
def truthyNat (o : Option Nat) : Bool :=
  match o with
  | none => false
  | some n => n != 0

/-- Numeric value of a digit string, as Python `int(...)` on a `\d+` match. -/
def natOfDigits (ds : List Char) : Nat :=
  ds.foldl (fun acc c => 10 * acc + (c.toNat - '0'.toNat)) 0

/-!
### Regex matchers

Deterministic matchers for the concrete regular expressions used by the
source.  Greedy maximal-munch is equivalent to Python backtracking search
for these patterns because adjacent subpatterns draw from disjoint
character classes (`\d`, `\s`, `\w` boundaries).
-/

/-- Attempt to match `(?:Expires|Expired):\s*(\d+\s+\w+\s+\d{4})` at the
start of the char list; returns the captured group. -/
def matchExpiryAt (cs : List Char) : Option (List Char) :=
  let rest? :=
    if ("Expires:".data).isPrefixOf cs then some (cs.drop 8)
    else if ("Expired:".data).isPrefixOf cs then some (cs.drop 8)
    else none
  match rest? with
  | none => none
  | some rest =>
    let t1 := rest.dropWhile pyIsSpace
    let d1 := t1.takeWhile Char.isDigit
    let t2 := t1.dropWhile Char.isDigit
    let s1 := t2.takeWhile pyIsSpace
    let t3 := t2.dropWhile pyIsSpace
    let w1 := t3.takeWhile isWordChar
    let t4 := t3.dropWhile isWordChar
    let s2 := t4.takeWhile pyIsSpace
    let t5 := t4.dropWhile pyIsSpace
    let d2 := t5.take 4
    if d1.isEmpty || s1.isEmpty || w1.isEmpty || s2.isEmpty then none
    else if d2.length = 4 && d2.all Char.isDigit then
      some (d1 ++ s1 ++ w1 ++ s2 ++ d2)
    else none

/-- `re.search` for the expiry-date pattern: first position, scanning left
to right, at which the pattern matches. -/
def searchExpiryL : List Char → Option (List Char)
  | [] => none
  | c :: t =>
    match matchExpiryAt (c :: t) with
    | some r => some r
    | none => searchExpiryL t

/-- `re.search(r'(?:Expires|Expired):\s*(\d+\s+\w+\s+\d{4})', s)`, group 1. -/
def searchExpiry (s : String) : Option String :=
  (searchExpiryL s.data).map String.mk

/-- `re.search(r'\d{4}', s)`: first run of four consecutive digits. -/
def searchFourDigitsL : List Char → Option (List Char)
  | [] => none
  | c :: t =>
    match c :: t with
    | a :: b :: c2 :: d :: _ =>
      if a.isDigit && b.isDigit && c2.isDigit && d.isDigit then some [a, b, c2, d]
      else searchFourDigitsL t
    | _ => searchFourDigitsL t

/-- `re.search(r'\d{4}', s)`, group 0. -/
def searchFourDigits (s : String) : Option String :=
  (searchFourDigitsL s.data).map String.mk

/-- Match `(19|20)\d{2}\b` at the start of the char list, assuming the word
boundary before the position has already been checked. -/
def yearAt (cs : List Char) : Option (List Char) :=
  match cs with
  | a :: b :: c :: d :: rest =>
    if ((a = '1' && b = '9') || (a = '2' && b = '0')) && c.isDigit && d.isDigit
        && (rest.isEmpty || !isWordChar (rest.headD ' ')) then
      some [a, b, c, d]
    else none
  | _ => none

/-- `re.search(r'\b(19|20)\d{2}\b', s)`: scan left to right tracking the
previous character for the leading word boundary. -/
def searchYearGo (prev : Option Char) : List Char → Option (List Char)
  | [] => none
  | c :: t =>
    match (if prev.all (fun p => !isWordChar p) then yearAt (c :: t) else none) with
    | some r => some r
    | none => searchYearGo (some c) t

/-- `re.search(r'\b(19|20)\d{2}\b', s)`, group 0. -/
def searchYear (s : String) : Option String :=
  (searchYearGo none s.data).map String.mk

/-- `re.search(r'(\d+)', s)`: first maximal digit run. -/
def searchDigitRunL : List Char → Option (List Char)
  | [] => none
  | c :: t => if c.isDigit then some (c :: t.takeWhile Char.isDigit) else searchDigitRunL t

/-- `re.search(r'(\d+)', s)`, group 1. -/
def searchDigitRun (s : String) : Option (List Char) :=
  searchDigitRunL s.data

/-!
### The vehicle record

Shallow embedding of the `vehicle_data` dictionary built by the
extractors: named sections mapping field names to values.  Fields carry
the type the Python code actually stores: strings everywhere except
`total_keepers`, `tax_days_left` and `mot_days_left`, which the code
assigns with `int(...)` (`optimized_scraper.py` line 429,
`selenium_scraper.py` lines 568 and 586). -/
structure VehicleData where
  make : Option String := none
  model : Option String := none
  description : Option String := none
  color : Option String := none
  fuel_type : Option String := none
  year : Option String := none
  tax_expiry : Option String := none
  tax_days_left : Option Nat := none
  mot_expiry : Option String := none
  mot_days_left : Option Nat := none
  transmission : Option String := none
  engine_size : Option String := none
  body_style : Option String := none
  power_bhp : Option String := none
  max_speed_mph : Option String := none
  torque_ftlb : Option String := none
  urban_mpg : Option String := none
  extra_urban_mpg : Option String := none
  combined_mpg : Option String := none
  child_safety_rating : Option String := none
  adult_safety_rating : Option String := none
  pedestrian_safety_rating : Option String := none
  co2_emissions : Option String := none
  tax_12_months : Option String := none
  tax_6_months : Option String := none
  total_keepers : Option Nat := none
  last_mot_mileage : Option String := none
  average_mileage : Option String := none
  mileage_status : Option String := none
  deriving DecidableEq, Repr

/-- The freshly initialised record (all sections empty). -/
def emptyVehicleData : VehicleData := {}

/-!
Field assignments (`vehicle_data['section']['field'] = value`), one small
definition per assigned field so that case analysis on the extractors
stays tractable. -/

/-- `vehicle_data['basic_info']['make'] = v`. -/
def setMake (v : String) (d : VehicleData) : VehicleData := { d with make := some v }

/-- `vehicle_data['basic_info']['model'] = v`. -/
def setModel (v : String) (d : VehicleData) : VehicleData := { d with model := some v }

/-- `vehicle_data['basic_info']['description'] = v`. -/
def setDescription (v : String) (d : VehicleData) : VehicleData :=
  { d with description := some v }

/-- `vehicle_data['basic_info']['color'] = v`. -/
def setColor (v : String) (d : VehicleData) : VehicleData := { d with color := some v }

/-- `vehicle_data['basic_info']['fuel_type'] = v`. -/
def setFuelType (v : String) (d : VehicleData) : VehicleData :=
  { d with fuel_type := some v }

/-- `vehicle_data['basic_info']['year'] = v`. -/
def setYear (v : String) (d : VehicleData) : VehicleData := { d with year := some v }

/-- `vehicle_data['tax_mot']['tax_expiry'] = v`. -/
def setTaxExpiry (v : String) (d : VehicleData) : VehicleData :=
  { d with tax_expiry := some v }

/-- `vehicle_data['tax_mot']['mot_expiry'] = v`. -/
def setMotExpiry (v : String) (d : VehicleData) : VehicleData :=
  { d with mot_expiry := some v }

/-- `vehicle_data['vehicle_details']['transmission'] = v`. -/
def setTransmission (v : String) (d : VehicleData) : VehicleData :=
  { d with transmission := some v }

/-- `vehicle_data['vehicle_details']['engine_size'] = v`. -/
def setEngineSize (v : String) (d : VehicleData) : VehicleData :=
  { d with engine_size := some v }

/-- `vehicle_data['vehicle_details']['body_style'] = v`. -/
def setBodyStyle (v : String) (d : VehicleData) : VehicleData :=
  { d with body_style := some v }

/-- `vehicle_data['additional']['total_keepers'] = int(v)`. -/
def setTotalKeepers (v : Nat) (d : VehicleData) : VehicleData :=
  { d with total_keepers := some v }

/-!
### `optimized_scraper.py`: `_parse_vehicle_info_fast` and
`_extract_results_fast`
-/

/-- The brand vocabulary of `_parse_vehicle_info_fast` (source order). -/
def brands : List String :=
  ["ALFA ROMEO", "AUDI", "BMW", "FORD", "SMART", "MERCEDES", "VOLKSWAGEN",
   "TOYOTA", "HONDA", "NISSAN", "PEUGEOT", "CITROEN", "RENAULT", "VAUXHALL",
   "VOLVO", "SKODA", "SEAT", "MINI", "JAGUAR", "LAND ROVER", "BENTLEY",
   "ROLLS-ROYCE", "ASTON MARTIN", "MCLAREN", "LOTUS", "MORGAN", "TVR",
   "CATERHAM", "ARIEL", "BAC", "NOBLE", "GINETTA", "WESTFIELD", "KIA",
   "HYUNDAI", "FIAT", "FERRARI", "LAMBORGHINI", "MASERATI", "PORSCHE",
   "SUBARU", "MITSUBISHI", "SUZUKI", "MAZDA", "LEXUS", "INFINITI", "ACURA",
   "CADILLAC", "CHEVROLET", "BUICK", "GMC", "LINCOLN", "CHRYSLER", "DODGE",
   "JEEP", "RAM"]

/-- The blocking phrases checked by `_extract_results_fast` (line 277). -/
def blockingPhrases : List String :=
  ["blocked", "captcha", "forbidden", "access denied", "robot"]

/-- `[line.strip() for line in page_text.split('\n') if line.strip()]`. -/
def prepLines (text : String) : List String :=
  ((pySplitNl text).map pyStrip).filter (fun l => !l.isEmpty)

/-- The inner `for j in range(1, min(4, len(lines) - i))` loop of the MOT
and TAX branches: first line in the (at most 3 line) lookahead window that
contains `Expires:` or `Expired:` and on which the date regex matches. -/
def scanExpiryWindow (window : List String) : Option String :=
  window.findSome? (fun l =>
    if pyContains l "Expires:" || pyContains l "Expired:" then searchExpiry l
    else none)

/-- The body of the brand branch of `_parse_vehicle_info_fast` (lines
400-411), entered when make is not yet set and `b` is the first brand of
the vocabulary occurring in `line.upper()`: set the make and, when the
remainder of the line is nonempty and no model is set yet, the model. -/
def applyBrand (d : VehicleData) (line : String) (b : String) : VehicleData :=
  -- `model_part = line.replace(brand, '').strip()`
  if !(pyStrip (pyReplace line b "")).isEmpty && !truthy d.model then
    setModel (pyStrip (pyReplace line b "")) (setMake b d)
  else setMake b d

/-- Which branch of the `elif` chain of `_parse_vehicle_info_fast` fires
for a line, and with which extracted value: the tagged-variant form of the
chain (the branch taken and the value extracted depend only on the line
and its lookahead, never on the record). -/
inductive LineAction where
  | motExpiry (v : String)
  | taxExpiry (v : String)
  | description (v : String)
  | color (v : String)
  | fuelType (v : String)
  | transmission (v : String)
  | engineSize (v : String)
  | bodyStyle (v : String)
  | year (v : String)
  | brandLine (line : String)
  | modelVariant (v : String)
  | regDate (next : String)
  | keepersLine (next : String)
  | nothing
  deriving DecidableEq, Repr

/-- `elif line == 'Model Variant' and i + 1 < len(lines)`. -/
def modelVariantCond (line : String) (rest : List String) : Bool :=
  line == "Model Variant" && !rest.isEmpty

/-- `elif 'Registration Date' in line and i + 1 < len(lines)`. -/
def regDateCond (line : String) (rest : List String) : Bool :=
  pyContains line "Registration Date" && !rest.isEmpty

/-- `elif 'Total Keepers' in line and i + 1 < len(lines)`. -/
def keepersCond (line : String) (rest : List String) : Bool :=
  pyContains line "Total Keepers" && !rest.isEmpty

/-- The `elif` chain of `_parse_vehicle_info_fast` (lines 342-430) as a
decision on the current line with its lookahead `rest`. -/
def lineAction (line : String) (rest : List String) : LineAction :=
  if pyStrip line = "MOT" then
    match scanExpiryWindow (rest.take 3) with
    | some v => .motExpiry v
    | none => .nothing
  else if pyStrip line = "TAX" then
    match scanExpiryWindow (rest.take 3) with
    | some v => .taxExpiry v
    | none => .nothing
  else if pyStartsWith line "Description " then
    .description (pyStrip (pyReplace line "Description " ""))
  else if pyStartsWith line "Primary Colour " then
    .color (pyStrip (pyReplace line "Primary Colour " ""))
  else if pyStartsWith line "Fuel Type " then
    .fuelType (pyStrip (pyReplace line "Fuel Type " ""))
  else if pyStartsWith line "Transmission " then
    .transmission (pyStrip (pyReplace line "Transmission " ""))
  else if pyStartsWith line "Engine " && pyContains line "cc" then
    .engineSize (pyStrip (pyReplace line "Engine " ""))
  else if pyStartsWith line "Body Style " then
    .bodyStyle (pyStrip (pyReplace line "Body Style " ""))
  else if pyStartsWith line "Year Manufacture " then
    match searchFourDigits (pyStrip (pyReplace line "Year Manufacture " "")) with
    | some y => .year y
    | none => .nothing
  else if (brands.find? (fun b => pyContains (pyUpper line) b)).isSome then
    -- the outer `any(brand in line.upper() ...)` guard
    .brandLine line
  else if modelVariantCond line rest then
    .modelVariant (rest.headD "")
  else if regDateCond line rest then
    .regDate (rest.headD "")
  else if keepersCond line rest then
    .keepersLine (rest.headD "")
  else .nothing

/-- Apply the fired branch to the record.  The brand branch re-runs the
`for brand in [...]` inner loop (finding the same first matching brand as
the `any(...)` guard) under the `if not ... get('make')` check of the
source. -/
def applyAction (d : VehicleData) : LineAction → VehicleData
  | .motExpiry v => setMotExpiry v d
  | .taxExpiry v => setTaxExpiry v d
  | .description v => setDescription v d
  | .color v => setColor v d
  | .fuelType v => setFuelType v d
  | .transmission v => setTransmission v d
  | .engineSize v => setEngineSize v d
  | .bodyStyle v => setBodyStyle v d
  | .year v => setYear v d
  | .brandLine line =>
    if truthy d.make then d
    else
      match brands.find? (fun b => pyContains (pyUpper line) b) with
      | some b => applyBrand d line b
      | none => d
  | .modelVariant v => setModel v d
  | .regDate next =>
    match searchYear next with
    | some y => setYear y d
    | none => d
  | .keepersLine next =>
    match searchDigitRun next with
    | some ds => setTotalKeepers (natOfDigits ds) d
    | none => d
  | .nothing => d

/-- One iteration of the `for i, line in enumerate(lines)` loop of
`_parse_vehicle_info_fast`: `line` is `lines[i]` and `rest` is the list of
lines after it (all lookahead in the source is relative, via `lines[i+j]`). -/
def stepLine (d : VehicleData) (line : String) (rest : List String) : VehicleData :=
  applyAction d (lineAction line rest)

/-- The whole `for i, line in enumerate(lines)` loop of
`_parse_vehicle_info_fast`, expressed structurally: each line is processed
with the remaining lines as lookahead. -/
def parseVehicleInfoFastGo : VehicleData → List String → VehicleData
  | d, [] => d
  | d, line :: rest => parseVehicleInfoFastGo (stepLine d line rest) rest

/-- `_parse_vehicle_info_fast(vehicle_data, lines)`: mutates the record in
place in the source; modeled as returning the updated record. -/
def parseVehicleInfoFast (d : VehicleData) (lines : List String) : VehicleData :=
  parseVehicleInfoFastGo d lines

/-- Result of `_extract_results_fast`: the blocking branch returns the
empty dict `{}` (modeled as `blocked`), every other path returns the
populated `vehicle_data` record. -/
inductive ExtractResult where
  | blocked
  | data (d : VehicleData)
  deriving DecidableEq, Repr

/-- The `has_data` predicate of `_extract_results_fast` (lines 309-312):
`make or model or mot_expiry or total_keepers`, with Python truthiness. -/
def hasEssentialData (d : VehicleData) : Bool :=
  truthy d.make || truthy d.model || truthy d.mot_expiry || truthyNat d.total_keepers

/-- The extraction core of `_extract_results_fast` on the rendered page
text: the initial `_parse_vehicle_info_fast(vehicle_data, [])` call is a
no-op pass on an empty line list; the blocking check short-circuits before
the real parse; the scroll-triggered second pass and the XPath reads are
browser interactions (they re-run `_parse_vehicle_info_fast` on an
extended line list, modeled by a further `parseVehicleInfoFast`
application, see the first-writer-wins analysis). -/
def extractResultsFast (text : String) : ExtractResult :=
  if blockingPhrases.any (fun p => pyContains (pyLower text) p) then .blocked
  else .data (parseVehicleInfoFast (parseVehicleInfoFast emptyVehicleData []) (prepLines text))

/-- The spec's `ExtractionOutcome` tags. -/
inductive Outcome where
  | Success
  | NotFound
  | Blocked
  | EmptyResult
  deriving DecidableEq, Repr

/-- Classify an extraction result: the blocking branch is the `Blocked`
outcome; otherwise the essential-data verdict separates `Success` from
`EmptyResult`. -/
def classifyResult : ExtractResult → Outcome
  | .blocked => .Blocked
  | .data d => if hasEssentialData d then .Success else .EmptyResult

/-!
### `fast_api_scraper.py`: `_extract_essential_data` and
`scrape_vehicle_data`
-/

/-- The make/model block of `_extract_essential_data` (lines 90-96): an
independent `if` preceding the field chain. -/
def essMakeModel (d : VehicleData) (line : String) : VehicleData :=
  let words := pySplitWs line
  if !truthy d.make && decide (words.length ≥ 2)
      && words.any (fun w => pyIsUpperStr w && decide (w.length > 2))
      && !(pyContains line "VEHICLE") && !(pyContains line "DETAILS") then
    if words.length ≥ 2 then setModel (words.getLastD "") (setMake line d)
    else setMake line d
  else d

/-- `next_line.replace('Expires: ', '').replace('Expired: ', '')`. -/
def essExpiryValue (next : String) : String :=
  pyReplace (pyReplace next "Expires: " "") "Expired: " ""

/-- One iteration of the `for i, line in enumerate(lines)` loop of
`_extract_essential_data`, run only when `i < len(lines) - 1`; `next` is
`lines[i + 1]`.  The make/model block is an independent `if`; the
TAX/MOT/Colour/Fuel/Transmission/Engine/Description chain follows it. -/
def essStep (d : VehicleData) (line next : String) : VehicleData :=
  let d1 := essMakeModel d line
  if pyUpper line = "TAX" && pyContains next "xpir" then
    setTaxExpiry (essExpiryValue next) d1
  else if pyUpper line = "MOT" && pyContains next "xpir" then
    setMotExpiry (essExpiryValue next) d1
  else if pyContains line "Primary Colour" || pyContains line "Colour" then
    if !next.isEmpty && next.length < 20 then setColor next d1 else d1
  else if pyContains line "Fuel Type" then
    if !next.isEmpty && next.length < 20 then setFuelType next d1 else d1
  else if pyContains line "Transmission" then
    if !next.isEmpty && next.length < 30 then setTransmission next d1 else d1
  else if pyContains line "Engine" && pyContains next "cc" then
    if !next.isEmpty && pyContains next "cc" then setEngineSize next d1 else d1
  else if pyContains line "Description" then
    if !next.isEmpty && next.length < 50 then setDescription next d1 else d1
  else d1

/-- The loop of `_extract_essential_data`: the guard `if i < len(lines) - 1`
skips the final line. -/
def extractEssentialGo : VehicleData → List String → VehicleData
  | d, [] => d
  | d, [_] => d
  | d, a :: b :: t => extractEssentialGo (essStep d a b) (b :: t)

/-- `_extract_essential_data` on the prepared line list. -/
def extractEssentialData (lines : List String) : VehicleData :=
  extractEssentialGo emptyVehicleData lines

/-- Result of `FastApiScraper.scrape_vehicle_data` on a loaded page: the
not-found marker check returns the `vehicle_not_found` error dict
(modeled as `notFound`) before any extraction; otherwise the extracted
record is returned. -/
inductive FastResult where
  | notFound
  | data (d : VehicleData)
  deriving DecidableEq, Repr

/-- The document-processing part of `FastApiScraper.scrape_vehicle_data`
(lines 44-58): the HTTP fetch is external; its 200-status response text is
the input document. -/
def fastScrapeVehicleData (text : String) : FastResult :=
  if pyContains text "No Vehicle Found" || pyContains text "Please Try Again" then
    .notFound
  else
    .data (extractEssentialData (prepLines text))

/-!
### `utils.py`: `clean_text`
-/

/-- `re.sub(r'\s+', ' ', ...)`: collapse every maximal whitespace run to a
single space.  The flag records whether we are inside a run whose
replacement space has already been emitted. -/
def collapseGo : Bool → List Char → List Char
  | _, [] => []
  | inRun, c :: t =>
    if pyIsSpace c then
      if inRun then collapseGo true t else ' ' :: collapseGo true t
    else
      c :: collapseGo false t

/-- `re.sub(r'\s+', ' ', cs)`. -/
def collapseWs (cs : List Char) : List Char :=
  collapseGo false cs

/-- The character class kept by `re.sub(r'[^\w\s\-\.\,\(\)\£\%\/]', '', ...)`. -/
def allowedChar (c : Char) : Bool :=
  isWordChar c || pyIsSpace c ||
    (c = '-' || c = '.' || c = ',' || c = '(' || c = ')' || c = '£' || c = '%' || c = '/')

/-- `clean_text` from `utils.py` on char lists: the falsy guard, then
strip, collapse whitespace, and drop disallowed characters. -/
def cleanTextL (cs : List Char) : List Char :=
  if cs.isEmpty then []
  else (collapseWs (pyStripL cs)).filter allowedChar

/-- `clean_text` from `utils.py`. -/
def cleanText (s : String) : String :=
  String.mk (cleanTextL s.data)

/-!
### `data_extractor.py` / `enhanced_scraper.py`: `_normalize_key`
-/

/-- `_normalize_key` from `data_extractor.py`:
`key.lower().replace(' ', '_').replace('/', '_').replace('-', '_')`. -/
def normalizeKey (key : String) : String :=
  pyReplace (pyReplace (pyReplace (pyLower key) " " "_") "/" "_") "-" "_"

/-- `_normalize_key` from `enhanced_scraper.py`: additionally removes
parentheses. -/
def normalizeKeyEnhanced (key : String) : String :=
  pyReplace (pyReplace (normalizeKey key) "(" "") ")" ""

/-- Character-level restatement of what `normalizeKey` computes: lowercase
each character and substitute `_` for space, `/` and `-` (no stripping). -/
def snakeCaseChar (c : Char) : Char :=
  let c' := c.toLower
  if c' = ' ' || c' = '/' || c' = '-' then '_' else c'

/-- The key normalizer the claim describes, following the spec's words:
lowercase, **strip leading and trailing whitespace**, then replace the
remaining (internal) spaces, `/` and `-` by `_`. -/
def claimNormalizeKey (key : String) : String :=
  String.mk ((pyStripL (key.data.map Char.toLower)).map
    (fun c => if c = ' ' || c = '/' || c = '-' then '_' else c))

/-!
### `selenium_scraper.py`: make inference (`_infer_make_from_model`)
-/

/-- The static model-to-make table of `_infer_make_from_model`
(insertion/iteration order as in the source dict literal). -/
def modelToMake : List (String × String) :=
  [("compass", "Jeep"), ("wrangler", "Jeep"), ("cherokee", "Jeep"),
   ("renegade", "Jeep"), ("focus", "Ford"), ("fiesta", "Ford"),
   ("mondeo", "Ford"), ("kuga", "Ford"), ("golf", "Volkswagen"),
   ("polo", "Volkswagen"), ("passat", "Volkswagen"), ("tiguan", "Volkswagen"),
   ("corolla", "Toyota"), ("yaris", "Toyota"), ("camry", "Toyota"),
   ("prius", "Toyota"), ("civic", "Honda"), ("accord", "Honda"),
   ("crv", "Honda"), ("hrv", "Honda"), ("astra", "Vauxhall"),
   ("corsa", "Vauxhall"), ("insignia", "Vauxhall"), ("mokka", "Vauxhall"),
   ("clio", "Renault"), ("megane", "Renault"), ("captur", "Renault"),
   ("scenic", "Renault"), ("208", "Peugeot"), ("308", "Peugeot"),
   ("508", "Peugeot"), ("2008", "Peugeot"), ("c3", "Citroen"),
   ("c4", "Citroen"), ("c5", "Citroen"), ("berlingo", "Citroen")]

/-- `_infer_make_from_model`: scan the table in order and set the make from
the first model-name substring found in the lowercased model. -/
def inferMakeFromModel (d : VehicleData) : VehicleData :=
  match modelToMake.find? (fun p => pyContains (pyLower (d.model.getD "")) p.1) with
  | some p => { d with make := some p.2 }
  | none => d

/-- The post-processing step of `_extract_vehicle_data` (lines 532-534):
the inference table is consulted only when make is still absent and a
model is present. -/
def applyMakeInference (d : VehicleData) : VehicleData :=
  if !truthy d.make && truthy d.model then inferMakeFromModel d else d

/-!
### `api_response_formatter.py`

The two formatters are embedded as association lists mirroring the dict
literals of the source, so that the produced section names and field keys
are computed data that can be compared.  Values are modeled with a tagged
Python-value type recording whether the stored value is a string or an
integer.
-/

/-- A Python scalar as stored in the record: string or integer. -/
inductive PyVal where
  | str (s : String)
  | int (n : Int)
  deriving DecidableEq, Repr

/-- Whether a stored value is a string. -/
def PyVal.isStr : PyVal → Bool
  | .str _ => true
  | .int _ => false

/-- Lift an optional string field into the response value space. -/
def optStr (o : Option String) : Option PyVal := o.map PyVal.str

/-- Lift an optional integer field into the response value space. -/
def optNat (o : Option Nat) : Option PyVal := o.map (fun n => PyVal.int n)

/-- Lift an optional (possibly negative) integer column. -/
def optInt (o : Option Int) : Option PyVal := o.map PyVal.int

/-- A Python `datetime.date` as stored in the database columns. -/
structure PyDate where
  day : Nat
  month : Nat
  year : Nat
  deriving DecidableEq, Repr

/-- `%b`: abbreviated month name (C locale). -/
def monthAbbrev : Nat → String
  | 1 => "Jan" | 2 => "Feb" | 3 => "Mar" | 4 => "Apr" | 5 => "May" | 6 => "Jun"
  | 7 => "Jul" | 8 => "Aug" | 9 => "Sep" | 10 => "Oct" | 11 => "Nov" | 12 => "Dec"
  | _ => ""

/-- `%d`: zero-padded day of month. -/
def pad2 (n : Nat) : String :=
  if n < 10 then "0" ++ toString n else toString n

/-- `date.strftime('%d %b %Y')`. -/
def strftimeDmy (dt : PyDate) : String :=
  pad2 dt.day ++ " " ++ monthAbbrev dt.month ++ " " ++ toString dt.year

/-- The persisted `VehicleData` row of `models.py` (the columns read by
`format_database_vehicle_response`): string columns as optional strings,
`Integer` columns as optional integers, `Date` columns as optional dates. -/
structure DbRecord where
  make : Option String := none
  model : Option String := none
  description : Option String := none
  color : Option String := none
  fuel_type : Option String := none
  year : Option Int := none
  tax_expiry : Option PyDate := none
  tax_days_left : Option Int := none
  mot_expiry : Option PyDate := none
  mot_days_left : Option Int := none
  transmission : Option String := none
  engine_size : Option String := none
  body_style : Option String := none
  power_bhp : Option String := none
  max_speed_mph : Option String := none
  torque_ftlb : Option String := none
  urban_mpg : Option String := none
  extra_urban_mpg : Option String := none
  combined_mpg : Option String := none
  child_safety_rating : Option String := none
  adult_safety_rating : Option String := none
  pedestrian_safety_rating : Option String := none
  co2_emissions : Option String := none
  tax_12_months : Option String := none
  tax_6_months : Option String := none
  total_keepers : Option Int := none
  last_mot_mileage : Option Int := none
  average_mileage : Option Int := none
  mileage_status : Option String := none
  deriving DecidableEq, Repr

/-- A formatted response: ordered sections of ordered (key, value) pairs,
matching the JSON-shaped dict literals of the formatter. -/
def FormattedResponse := List (String × List (String × Option PyVal))

/-- `format_complete_vehicle_response` applied to a present (truthy)
freshly extracted record; the `if not vehicle_data: return None` guard
covers only the no-record case.  `year` goes through
`str(...) if ... else None` (Python truthiness, so an empty string becomes
`None`). -/
def formatCompleteVehicleResponse (d : VehicleData) : FormattedResponse :=
  [("basic_info",
    [("make", optStr d.make),
     ("model", optStr d.model),
     ("description", optStr d.description),
     ("color", optStr d.color),
     ("fuel_type", optStr d.fuel_type),
     ("year", if truthy d.year then optStr d.year else none)]),
   ("tax_mot",
    [("tax_expiry", optStr d.tax_expiry),
     ("tax_days_left", optNat d.tax_days_left),
     ("mot_expiry", optStr d.mot_expiry),
     ("mot_days_left", optNat d.mot_days_left)]),
   ("vehicle_details",
    [("transmission", optStr d.transmission),
     ("engine_size", optStr d.engine_size),
     ("body_style", optStr d.body_style)]),
   ("performance",
    [("power", optStr d.power_bhp),
     ("max_speed", optStr d.max_speed_mph),
     ("torque", optStr d.torque_ftlb)]),
   ("fuel_economy",
    [("urban", optStr d.urban_mpg),
     ("extra_urban", optStr d.extra_urban_mpg),
     ("combined", optStr d.combined_mpg)]),
   ("safety",
    [("child", optStr d.child_safety_rating),
     ("adult", optStr d.adult_safety_rating),
     ("pedestrian", optStr d.pedestrian_safety_rating)]),
   ("additional",
    [("co2_emissions", optStr d.co2_emissions),
     ("tax_12_months", optStr d.tax_12_months),
     ("tax_6_months", optStr d.tax_6_months),
     ("total_keepers", optNat d.total_keepers)]),
   ("mileage",
    [("last_mot_mileage", optStr d.last_mot_mileage),
     ("average", optStr d.average_mileage),
     ("status", optStr d.mileage_status)])]

/-- `format_database_vehicle_response`: dates are rendered with
`strftime('%d %b %Y')` when present, `year` through
`str(...) if ... else None` (an integer year `0` would be falsy). -/
def formatDatabaseVehicleResponse (r : DbRecord) : FormattedResponse :=
  [("basic_info",
    [("make", optStr r.make),
     ("model", optStr r.model),
     ("description", optStr r.description),
     ("color", optStr r.color),
     ("fuel_type", optStr r.fuel_type),
     ("year", match r.year with
              | some y => if y = 0 then none else some (.str (toString y))
              | none => none)]),
   ("tax_mot",
    [("tax_expiry", r.tax_expiry.map (fun dt => .str (strftimeDmy dt))),
     ("tax_days_left", optInt r.tax_days_left),
     ("mot_expiry", r.mot_expiry.map (fun dt => .str (strftimeDmy dt))),
     ("mot_days_left", optInt r.mot_days_left)]),
   ("vehicle_details",
    [("transmission", optStr r.transmission),
     ("engine_size", optStr r.engine_size),
     ("body_style", optStr r.body_style)]),
   ("performance",
    [("power", optStr r.power_bhp),
     ("max_speed", optStr r.max_speed_mph),
     ("torque", optStr r.torque_ftlb)]),
   ("fuel_economy",
    [("urban", optStr r.urban_mpg),
     ("extra_urban", optStr r.extra_urban_mpg),
     ("combined", optStr r.combined_mpg)]),
   ("safety",
    [("child", optStr r.child_safety_rating),
     ("adult", optStr r.adult_safety_rating),
     ("pedestrian", optStr r.pedestrian_safety_rating)]),
   ("additional",
    [("co2_emissions", optStr r.co2_emissions),
     ("tax_12_months", optStr r.tax_12_months),
     ("tax_6_months", optStr r.tax_6_months),
     ("total_keepers", optInt r.total_keepers)]),
   ("mileage",
    [("last_mot_mileage", optInt r.last_mot_mileage),
     ("average", optInt r.average_mileage),
     ("status", optStr r.mileage_status)])]

/-- The shape of a response: section names with, per section, the ordered
list of field keys. -/
def responseKeyShape (resp : FormattedResponse) : List (String × List String) :=
  resp.map (fun s => (s.1, s.2.map Prod.fst))

/-!
### Populated fields of an extracted record (for the string-valued
invariant)
-/

/-- A populated string-typed field as a (key, value) entry. -/
def strEntry (name : String) (v : Option String) : List (String × PyVal) :=
  match v with
  | some s => [(name, .str s)]
  | none => []

/-- A populated integer-typed field as a (key, value) entry (these are the
fields the code assigns with `int(...)`). -/
def natEntry (name : String) (v : Option Nat) : List (String × PyVal) :=
  match v with
  | some n => [(name, .int n)]
  | none => []

/-- All populated fields of a record, with the value type the code stores. -/
def vehicleFields (d : VehicleData) : List (String × PyVal) :=
  strEntry "make" d.make ++ strEntry "model" d.model ++
  strEntry "description" d.description ++ strEntry "color" d.color ++
  strEntry "fuel_type" d.fuel_type ++ strEntry "year" d.year ++
  strEntry "tax_expiry" d.tax_expiry ++ natEntry "tax_days_left" d.tax_days_left ++
  strEntry "mot_expiry" d.mot_expiry ++ natEntry "mot_days_left" d.mot_days_left ++
  strEntry "transmission" d.transmission ++ strEntry "engine_size" d.engine_size ++
  strEntry "body_style" d.body_style ++ strEntry "power_bhp" d.power_bhp ++
  strEntry "max_speed_mph" d.max_speed_mph ++ strEntry "torque_ftlb" d.torque_ftlb ++
  strEntry "urban_mpg" d.urban_mpg ++ strEntry "extra_urban_mpg" d.extra_urban_mpg ++
  strEntry "combined_mpg" d.combined_mpg ++
  strEntry "child_safety_rating" d.child_safety_rating ++
  strEntry "adult_safety_rating" d.adult_safety_rating ++
  strEntry "pedestrian_safety_rating" d.pedestrian_safety_rating ++
  strEntry "co2_emissions" d.co2_emissions ++
  strEntry "tax_12_months" d.tax_12_months ++ strEntry "tax_6_months" d.tax_6_months ++
  natEntry "total_keepers" d.total_keepers ++
  strEntry "last_mot_mileage" d.last_mot_mileage ++
  strEntry "average_mileage" d.average_mileage ++
  strEntry "mileage_status" d.mileage_status

/-!
## Helper lemmas
-/

theorem findSome?_append_of_none {α β : Type} (f : α → Option β) :
    ∀ (w : List α), (∀ l ∈ w, f l = none) → ∀ rest : List α,
      (w ++ rest).findSome? f = rest.findSome? f := by
  intro w
  induction w with
  | nil => intro _ rest; rfl
  | cons a t ih =>
    intro hw rest
    have ha : f a = none := hw a (List.mem_cons_self a t)
    have ht : ∀ l ∈ t, f l = none := fun l hl => hw l (List.mem_cons_of_mem a hl)
    simp [List.findSome?, ha, ih ht rest]

theorem lineAction_taxExpiry_inv (line : String) (rest : List String) (v : String)
    (h : lineAction line rest = .taxExpiry v) : pyStrip line = "TAX" := by
  unfold lineAction at h
  by_cases h1 : pyStrip line = "MOT"
  · rw [if_pos h1] at h
    cases hs : scanExpiryWindow (rest.take 3) <;> rw [hs] at h <;>
      exact LineAction.noConfusion h
  rw [if_neg h1] at h
  by_cases h2 : pyStrip line = "TAX"
  · exact h2
  exfalso
  rw [if_neg h2] at h
  by_cases h3 : pyStartsWith line "Description " = true
  · rw [if_pos h3] at h; exact LineAction.noConfusion h
  rw [if_neg h3] at h
  by_cases h4 : pyStartsWith line "Primary Colour " = true
  · rw [if_pos h4] at h; exact LineAction.noConfusion h
  rw [if_neg h4] at h
  by_cases h5 : pyStartsWith line "Fuel Type " = true
  · rw [if_pos h5] at h; exact LineAction.noConfusion h
  rw [if_neg h5] at h
  by_cases h6 : pyStartsWith line "Transmission " = true
  · rw [if_pos h6] at h; exact LineAction.noConfusion h
  rw [if_neg h6] at h
  by_cases h7 : (pyStartsWith line "Engine " && pyContains line "cc") = true
  · rw [if_pos h7] at h; exact LineAction.noConfusion h
  rw [if_neg h7] at h
  by_cases h8 : pyStartsWith line "Body Style " = true
  · rw [if_pos h8] at h; exact LineAction.noConfusion h
  rw [if_neg h8] at h
  by_cases h9 : pyStartsWith line "Year Manufacture " = true
  · rw [if_pos h9] at h
    cases hs : searchFourDigits (pyStrip (pyReplace line "Year Manufacture " "")) <;>
      rw [hs] at h <;> exact LineAction.noConfusion h
  rw [if_neg h9] at h
  by_cases h10 : (brands.find? (fun b => pyContains (pyUpper line) b)).isSome = true
  · rw [if_pos h10] at h; exact LineAction.noConfusion h
  rw [if_neg h10] at h
  by_cases h11 : modelVariantCond line rest = true
  · rw [if_pos h11] at h; exact LineAction.noConfusion h
  rw [if_neg h11] at h
  by_cases h12 : regDateCond line rest = true
  · rw [if_pos h12] at h; exact LineAction.noConfusion h
  rw [if_neg h12] at h
  by_cases h13 : keepersCond line rest = true
  · rw [if_pos h13] at h; exact LineAction.noConfusion h
  rw [if_neg h13] at h
  exact LineAction.noConfusion h

theorem applyBrand_tax_preserve (d : VehicleData) (line b : String) :
    (applyBrand d line b).tax_expiry = d.tax_expiry := by
  unfold applyBrand
  split <;> rfl

theorem applyAction_tax_preserve (d : VehicleData) (a : LineAction)
    (h : ∀ v, a ≠ .taxExpiry v) :
    (applyAction d a).tax_expiry = d.tax_expiry := by
  cases a with
  | taxExpiry v => exact absurd rfl (h v)
  | brandLine l =>
    show (if truthy d.make then d else _).tax_expiry = d.tax_expiry
    split
    · rfl
    · split
      · exact applyBrand_tax_preserve d l _
      · rfl
  | regDate next =>
    show (match searchYear next with
          | some y => setYear y d
          | none => d).tax_expiry = d.tax_expiry
    split <;> rfl
  | keepersLine next =>
    show (match searchDigitRun next with
          | some ds => setTotalKeepers (natOfDigits ds) d
          | none => d).tax_expiry = d.tax_expiry
    split <;> rfl
  | _ => rfl

theorem stepLine_tax_preserve (d : VehicleData) (line : String) (rest : List String)
    (h : ¬ pyStrip line = "TAX") :
    (stepLine d line rest).tax_expiry = d.tax_expiry :=
  applyAction_tax_preserve d (lineAction line rest)
    (fun v hv => h (lineAction_taxExpiry_inv line rest v hv))

theorem applyBrand_make (d : VehicleData) (line b : String) :
    (applyBrand d line b).make = some b := by
  unfold applyBrand
  split <;> rfl

theorem applyAction_make_preserve (d : VehicleData) (a : LineAction)
    (h : truthy d.make = true) : (applyAction d a).make = d.make := by
  cases a with
  | brandLine l =>
    show (if truthy d.make then d else _).make = d.make
    rw [if_pos h]
  | regDate next =>
    show (match searchYear next with
          | some y => setYear y d
          | none => d).make = d.make
    split <;> rfl
  | keepersLine next =>
    show (match searchDigitRun next with
          | some ds => setTotalKeepers (natOfDigits ds) d
          | none => d).make = d.make
    split <;> rfl
  | _ => rfl

theorem applyAction_make_cases (d : VehicleData) (a : LineAction) :
    (applyAction d a).make = d.make ∨
      ∃ b, b ∈ brands ∧ (applyAction d a).make = some b := by
  cases a with
  | brandLine l =>
    have heq : applyAction d (.brandLine l) =
        if truthy d.make then d
        else
          match brands.find? (fun b => pyContains (pyUpper l) b) with
          | some b => applyBrand d l b
          | none => d := rfl
    rw [heq]
    by_cases h : truthy d.make = true
    · rw [if_pos h]; exact Or.inl rfl
    · rw [if_neg h]
      cases hf : brands.find? (fun b => pyContains (pyUpper l) b) with
      | none => exact Or.inl rfl
      | some b =>
        exact Or.inr ⟨b, List.mem_of_find?_eq_some hf, applyBrand_make d l b⟩
  | regDate next =>
    refine Or.inl ?_
    show (match searchYear next with
          | some y => setYear y d
          | none => d).make = d.make
    split <;> rfl
  | keepersLine next =>
    refine Or.inl ?_
    show (match searchDigitRun next with
          | some ds => setTotalKeepers (natOfDigits ds) d
          | none => d).make = d.make
    split <;> rfl
  | _ => exact Or.inl rfl

theorem parseGo_make_preserve (lines : List String) :
    ∀ d : VehicleData, truthy d.make = true →
      (parseVehicleInfoFastGo d lines).make = d.make := by
  induction lines with
  | nil => intro d _; rfl
  | cons a t ih =>
    intro d h
    have hstep : (stepLine d a t).make = d.make :=
      applyAction_make_preserve d (lineAction a t) h
    have htr : truthy (stepLine d a t).make = true := by rw [hstep]; exact h
    calc (parseVehicleInfoFastGo (stepLine d a t) t).make
        = (stepLine d a t).make := ih (stepLine d a t) htr
      _ = d.make := hstep

theorem parseGo_make_cases (lines : List String) :
    ∀ d : VehicleData, (parseVehicleInfoFastGo d lines).make = d.make ∨
      ∃ b, b ∈ brands ∧ (parseVehicleInfoFastGo d lines).make = some b := by
  induction lines with
  | nil => intro d; exact Or.inl rfl
  | cons a t ih =>
    intro d
    have hgo : parseVehicleInfoFastGo d (a :: t)
        = parseVehicleInfoFastGo (stepLine d a t) t := rfl
    rw [hgo]
    rcases ih (stepLine d a t) with h | ⟨b, hb, h⟩
    · rw [h]
      exact applyAction_make_cases d (lineAction a t)
    · exact Or.inr ⟨b, hb, h⟩

theorem brands_not_empty : ∀ b ∈ brands, b.isEmpty = false := by decide

theorem parseGo_tax_preserve (lines : List String) :
    ∀ d : VehicleData, (∀ l ∈ lines, ¬ pyStrip l = "TAX") →
      (parseVehicleInfoFastGo d lines).tax_expiry = d.tax_expiry := by
  induction lines with
  | nil => intro d _; rfl
  | cons a t ih =>
    intro d h
    have ha : ¬ pyStrip a = "TAX" := h a (List.mem_cons_self a t)
    have ht : ∀ l ∈ t, ¬ pyStrip l = "TAX" := fun l hl => h l (List.mem_cons_of_mem a hl)
    calc (parseVehicleInfoFastGo (stepLine d a t) t).tax_expiry
        = (stepLine d a t).tax_expiry := ih (stepLine d a t) ht
      _ = d.tax_expiry := stepLine_tax_preserve d a t ha

theorem scanExpiryWindow_found (w1 w2 : List String)
    (hw1 : ∀ l ∈ w1, pyContains l "Expires:" = false ∧ pyContains l "Expired:" = false) :
    scanExpiryWindow (w1 ++ "Expires: 01 Jul 2025" :: w2) = some "01 Jul 2025" := by
  unfold scanExpiryWindow
  rw [findSome?_append_of_none _ w1 (fun l hl => by
    rcases hw1 l hl with ⟨ha, hb⟩
    simp [ha, hb])]
  rw [List.findSome?_cons]
  rfl

theorem stepLine_tax_set (d : VehicleData) (post : List String) (v : String)
    (hscan : scanExpiryWindow (post.take 3) = some v) :
    stepLine d "TAX" post = setTaxExpiry v d := by
  have hact : lineAction "TAX" post = .taxExpiry v := by
    unfold lineAction
    rw [if_neg (by decide), if_pos (show pyStrip "TAX" = "TAX" by rfl), hscan]
  unfold stepLine
  rw [hact]
  rfl

theorem applyAction_days_preserve (d : VehicleData) (a : LineAction) :
    (applyAction d a).tax_days_left = d.tax_days_left ∧
      (applyAction d a).mot_days_left = d.mot_days_left := by
  cases a with
  | brandLine l =>
    have heq : applyAction d (.brandLine l) =
        if truthy d.make then d
        else
          match brands.find? (fun b => pyContains (pyUpper l) b) with
          | some b => applyBrand d l b
          | none => d := rfl
    rw [heq]
    split
    · exact ⟨rfl, rfl⟩
    · split
      · constructor <;> (unfold applyBrand; split <;> rfl)
      · exact ⟨rfl, rfl⟩
  | regDate next =>
    have heq : applyAction d (.regDate next) =
        match searchYear next with
        | some y => setYear y d
        | none => d := rfl
    rw [heq]
    constructor <;> (split <;> rfl)
  | keepersLine next =>
    have heq : applyAction d (.keepersLine next) =
        match searchDigitRun next with
        | some ds => setTotalKeepers (natOfDigits ds) d
        | none => d := rfl
    rw [heq]
    constructor <;> (split <;> rfl)
  | _ => exact ⟨rfl, rfl⟩

theorem parseGo_days_preserve (lines : List String) :
    ∀ d : VehicleData, (parseVehicleInfoFastGo d lines).tax_days_left = d.tax_days_left ∧
      (parseVehicleInfoFastGo d lines).mot_days_left = d.mot_days_left := by
  induction lines with
  | nil => intro d; exact ⟨rfl, rfl⟩
  | cons a t ih =>
    intro d
    have hgo : parseVehicleInfoFastGo d (a :: t)
        = parseVehicleInfoFastGo (stepLine d a t) t := rfl
    rw [hgo]
    rcases ih (stepLine d a t) with ⟨h1, h2⟩
    rcases applyAction_days_preserve d (lineAction a t) with ⟨g1, g2⟩
    exact ⟨h1.trans g1, h2.trans g2⟩

theorem strEntry_isStr (n : String) (v : Option String) (p : String × PyVal)
    (hp : p ∈ strEntry n v) : p.2.isStr = true := by
  cases v with
  | none => exact absurd hp (by simp [strEntry])
  | some s =>
    have : p = (n, .str s) := by simpa [strEntry] using hp
    rw [this]
    rfl

theorem natEntry_name (n : String) (v : Option Nat) (p : String × PyVal)
    (hp : p ∈ natEntry n v) : p.1 = n := by
  cases v with
  | none => exact absurd hp (by simp [natEntry])
  | some m =>
    have : p = (n, .int m) := by simpa [natEntry] using hp
    rw [this]

/-!
### Lemmas about `clean_text`
-/

/-- The first character, if any, is not whitespace. -/
def headNotSpace : List Char → Bool
  | [] => true
  | c :: _ => !pyIsSpace c

/-- The last character of a char list, structurally. -/
def lastChar? : List Char → Option Char
  | [] => none
  | [c] => some c
  | _ :: c :: t => lastChar? (c :: t)

/-- The last character, if any, is not whitespace. -/
def lastNotSpace (l : List Char) : Bool :=
  match lastChar? l with
  | none => true
  | some c => !pyIsSpace c

theorem lastChar?_cons_cons (a b : Char) (t : List Char) :
    lastChar? (a :: b :: t) = lastChar? (b :: t) := rfl

theorem lastNotSpace_cons_cons (a b : Char) (t : List Char) :
    lastNotSpace (a :: b :: t) = lastNotSpace (b :: t) := rfl

theorem lastChar?_append_singleton (c : Char) :
    ∀ l : List Char, lastChar? (l ++ [c]) = some c := by
  intro l
  induction l with
  | nil => rfl
  | cons a t ih =>
    cases t with
    | nil => rfl
    | cons b t' =>
      show lastChar? (b :: (t' ++ [c])) = some c
      exact ih

theorem lastChar?_reverse (l : List Char) : lastChar? l.reverse = l.head? := by
  cases l with
  | nil => rfl
  | cons c t =>
    rw [List.reverse_cons]
    exact lastChar?_append_singleton c t.reverse

theorem head?_reverse_eq_lastChar? (l : List Char) : l.reverse.head? = lastChar? l := by
  have h := lastChar?_reverse l.reverse
  rw [List.reverse_reverse] at h
  exact h.symm

theorem headNotSpace_iff (l : List Char) :
    headNotSpace l = true ↔ ∀ c, l.head? = some c → pyIsSpace c = false := by
  cases l with
  | nil => simp [headNotSpace]
  | cons a t =>
    show (!pyIsSpace a) = true ↔ _
    constructor
    · intro h c hc
      have hac : a = c := Option.some.inj hc
      rw [← hac]
      simpa using h
    · intro h
      have := h a rfl
      simp [this]

theorem dropWhile_headNotSpace (l : List Char) :
    headNotSpace (l.dropWhile pyIsSpace) = true := by
  induction l with
  | nil => rfl
  | cons c t ih =>
    by_cases h : pyIsSpace c = true
    · rw [List.dropWhile_cons, if_pos h]
      exact ih
    · have hcf : pyIsSpace c = false := by simpa using h
      rw [List.dropWhile_cons, if_neg h]
      show (!pyIsSpace c) = true
      simp [hcf]

theorem dropWhile_eq_self_of_headNotSpace (l : List Char) (h : headNotSpace l = true) :
    l.dropWhile pyIsSpace = l := by
  cases l with
  | nil => rfl
  | cons c t =>
    have hc : pyIsSpace c = false := (headNotSpace_iff (c :: t)).mp h c rfl
    rw [List.dropWhile_cons, if_neg (by simp [hc])]

theorem lastChar?_dropWhile (l : List Char) (h : ¬ l.dropWhile pyIsSpace = []) :
    lastChar? (l.dropWhile pyIsSpace) = lastChar? l := by
  induction l with
  | nil => exact absurd rfl h
  | cons c t ih =>
    by_cases hc : pyIsSpace c = true
    · rw [List.dropWhile_cons, if_pos hc] at h ⊢
      cases t with
      | nil => exact absurd rfl h
      | cons x xs =>
        rw [ih h]
        rfl
    · rw [List.dropWhile_cons, if_neg hc]

theorem stripL_headNotSpace (l : List Char) : headNotSpace (pyStripL l) = true := by
  rw [headNotSpace_iff]
  intro c hc
  unfold pyStripL at hc
  rw [head?_reverse_eq_lastChar?] at hc
  have hBne : ¬ (l.dropWhile pyIsSpace).reverse.dropWhile pyIsSpace = [] := by
    intro hb
    rw [hb] at hc
    exact Option.noConfusion hc
  rw [lastChar?_dropWhile _ hBne, lastChar?_reverse] at hc
  exact (headNotSpace_iff _).mp (dropWhile_headNotSpace l) c hc

theorem stripL_lastNotSpace (l : List Char) : lastNotSpace (pyStripL l) = true := by
  unfold pyStripL lastNotSpace
  rw [lastChar?_reverse]
  cases hh : ((l.dropWhile pyIsSpace).reverse.dropWhile pyIsSpace).head? with
  | none => rfl
  | some c =>
    have hcf := (headNotSpace_iff _).mp
      (dropWhile_headNotSpace (l.dropWhile pyIsSpace).reverse) c hh
    simp [hcf]

theorem stripL_eq_self (l : List Char) (h1 : headNotSpace l = true)
    (h2 : lastNotSpace l = true) : pyStripL l = l := by
  unfold pyStripL
  rw [dropWhile_eq_self_of_headNotSpace l h1]
  have hrev : headNotSpace l.reverse = true := by
    rw [headNotSpace_iff]
    intro c hc
    rw [head?_reverse_eq_lastChar?] at hc
    unfold lastNotSpace at h2
    rw [hc] at h2
    simpa using h2
  rw [dropWhile_eq_self_of_headNotSpace l.reverse hrev, List.reverse_reverse]

theorem collapseGo_cons_space_false (c : Char) (t : List Char) (hc : pyIsSpace c = true) :
    collapseGo false (c :: t) = ' ' :: collapseGo true t := by
  simp [collapseGo, hc]

theorem collapseGo_cons_space_true (c : Char) (t : List Char) (hc : pyIsSpace c = true) :
    collapseGo true (c :: t) = collapseGo true t := by
  simp [collapseGo, hc]

theorem collapseGo_cons_nonspace (b : Bool) (c : Char) (t : List Char)
    (hc : pyIsSpace c = false) : collapseGo b (c :: t) = c :: collapseGo false t := by
  cases b <;> simp [collapseGo, hc]

theorem collapseWs_headNotSpace (u : List Char) (h : headNotSpace u = true) :
    headNotSpace (collapseWs u) = true := by
  unfold collapseWs
  cases u with
  | nil => rfl
  | cons c t =>
    have hc : pyIsSpace c = false := (headNotSpace_iff (c :: t)).mp h c rfl
    rw [collapseGo_cons_nonspace false c t hc]
    show (!pyIsSpace c) = true
    simp [hc]

theorem collapseGo_lastNotSpace :
    ∀ u : List Char, lastNotSpace u = true →
      ∀ b : Bool, lastNotSpace (collapseGo b u) = true ∧
        (¬ u = [] → ¬ collapseGo b u = []) := by
  intro u
  induction u with
  | nil =>
    intro _ b
    exact ⟨rfl, fun hne => absurd rfl hne⟩
  | cons c t ih =>
    intro h b
    cases t with
    | nil =>
      have hc : pyIsSpace c = false := by
        have h' := h
        simp [lastNotSpace, lastChar?] at h'
        exact h'
      rw [collapseGo_cons_nonspace b c [] hc]
      show lastNotSpace [c] = true ∧ _
      refine ⟨?_, fun _ => by simp⟩
      simp [lastNotSpace, lastChar?, hc]
    | cons x xs =>
      have ht : lastNotSpace (x :: xs) = true := by
        rw [← lastNotSpace_cons_cons c x xs]
        exact h
      by_cases hc : pyIsSpace c = true
      · have hne : ¬ collapseGo true (x :: xs) = [] :=
          (ih ht true).2 (by simp)
        cases b with
        | true =>
          rw [collapseGo_cons_space_true c (x :: xs) hc]
          exact ⟨(ih ht true).1, fun _ => hne⟩
        | false =>
          rw [collapseGo_cons_space_false c (x :: xs) hc]
          cases hX : collapseGo true (x :: xs) with
          | nil => exact absurd hX hne
          | cons y ys =>
            have h1 := (ih ht true).1
            rw [hX] at h1
            refine ⟨?_, fun _ => by simp⟩
            rw [lastNotSpace_cons_cons]
            exact h1
      · have hcf : pyIsSpace c = false := by simpa using hc
        have hne : ¬ collapseGo false (x :: xs) = [] :=
          (ih ht false).2 (by simp)
        rw [collapseGo_cons_nonspace b c (x :: xs) hcf]
        cases hX : collapseGo false (x :: xs) with
        | nil => exact absurd hX hne
        | cons y ys =>
          have h1 := (ih ht false).1
          rw [hX] at h1
          refine ⟨?_, fun _ => by simp⟩
          rw [lastNotSpace_cons_cons]
          exact h1

theorem collapseGo_idem :
    ∀ u : List Char,
      collapseGo false (collapseGo false u) = collapseGo false u ∧
      collapseGo true (collapseGo true u) = collapseGo true u := by
  intro u
  induction u with
  | nil => exact ⟨rfl, rfl⟩
  | cons c t ih =>
    by_cases hc : pyIsSpace c = true
    · constructor
      · rw [collapseGo_cons_space_false c t hc,
          collapseGo_cons_space_false ' ' (collapseGo true t) (by decide),
          ih.2]
      · rw [collapseGo_cons_space_true c t hc]
        exact ih.2
    · have hcf : pyIsSpace c = false := by simpa using hc
      constructor
      · rw [collapseGo_cons_nonspace false c t hcf,
          collapseGo_cons_nonspace false c (collapseGo false t) hcf,
          ih.1]
      · rw [collapseGo_cons_nonspace true c t hcf,
          collapseGo_cons_nonspace true c (collapseGo false t) hcf,
          ih.1]

theorem mem_collapseGo (c : Char) :
    ∀ (u : List Char) (b : Bool), c ∈ collapseGo b u → c ∈ u ∨ c = ' ' := by
  intro u
  induction u with
  | nil => intro b hmem; exact absurd hmem (by simp [collapseGo])
  | cons a t ih =>
    intro b hmem
    by_cases ha : pyIsSpace a = true
    · cases b with
      | true =>
        rw [collapseGo_cons_space_true a t ha] at hmem
        rcases ih true hmem with hm | he
        · exact Or.inl (List.mem_cons_of_mem a hm)
        · exact Or.inr he
      | false =>
        rw [collapseGo_cons_space_false a t ha] at hmem
        rcases List.mem_cons.mp hmem with he | hm
        · exact Or.inr he
        · rcases ih true hm with hm' | he'
          · exact Or.inl (List.mem_cons_of_mem a hm')
          · exact Or.inr he'
    · have haf : pyIsSpace a = false := by simpa using ha
      rw [collapseGo_cons_nonspace b a t haf] at hmem
      rcases List.mem_cons.mp hmem with he | hm
      · exact Or.inl (by rw [he]; exact List.mem_cons_self a t)
      · rcases ih false hm with hm' | he'
        · exact Or.inl (List.mem_cons_of_mem a hm')
        · exact Or.inr he'

theorem mem_stripL (l : List Char) (c : Char) (h : c ∈ pyStripL l) : c ∈ l := by
  unfold pyStripL at h
  have h1 := List.mem_reverse.mp h
  have h2 := (List.dropWhile_sublist pyIsSpace).subset h1
  have h3 := List.mem_reverse.mp h2
  exact (List.dropWhile_sublist pyIsSpace).subset h3

theorem cleanTextL_idem (l : List Char) (h : ∀ c ∈ l, allowedChar c = true) :
    cleanTextL (cleanTextL l) = cleanTextL l := by
  cases l with
  | nil => rfl
  | cons c0 t0 =>
    have hne : ((c0 :: t0 : List Char).isEmpty) = false := rfl
    have hall : ∀ x ∈ collapseWs (pyStripL (c0 :: t0)), allowedChar x = true := by
      intro x hx
      rcases mem_collapseGo x (pyStripL (c0 :: t0)) false hx with hm | he
      · exact h x (mem_stripL _ x hm)
      · rw [he]; decide
    have hfil : (collapseWs (pyStripL (c0 :: t0))).filter allowedChar
        = collapseWs (pyStripL (c0 :: t0)) := List.filter_eq_self.mpr hall
    have hclean : cleanTextL (c0 :: t0) = collapseWs (pyStripL (c0 :: t0)) := by
      unfold cleanTextL
      rw [if_neg (by simp)]
      exact hfil
    rw [hclean]
    cases hT : collapseWs (pyStripL (c0 :: t0)) with
    | nil => rfl
    | cons y ys =>
      have hhead : headNotSpace (y :: ys) = true := by
        rw [← hT]
        exact collapseWs_headNotSpace _ (stripL_headNotSpace _)
      have hlast : lastNotSpace (y :: ys) = true := by
        rw [← hT]
        exact (collapseGo_lastNotSpace (pyStripL (c0 :: t0)) (stripL_lastNotSpace _) false).1
      have hstrip : pyStripL (y :: ys) = y :: ys := stripL_eq_self _ hhead hlast
      have hcoll : collapseWs (y :: ys) = y :: ys := by
        rw [← hT]
        show collapseGo false (collapseGo false (pyStripL (c0 :: t0)))
          = collapseGo false (pyStripL (c0 :: t0))
        exact (collapseGo_idem _).1
      have hall2 : ∀ x ∈ (y :: ys : List Char), allowedChar x = true := by
        intro x hx
        rw [← hT] at hx
        exact hall x hx
      unfold cleanTextL
      rw [if_neg (by simp)]
      rw [hstrip, hcoll]
      exact List.filter_eq_self.mpr hall2

/-!
### Lemmas about `pyReplace` for single-character patterns
-/

theorem pyReplaceGo_single (a b : Char) :
    ∀ (n : Nat) (cs : List Char), cs.length ≤ n →
      pyReplaceGo [a] [b] n cs = cs.map (fun c => if c = a then b else c) := by
  intro n
  induction n with
  | zero =>
    intro cs h
    cases cs with
    | nil => rfl
    | cons c t => simp at h
  | succ f ih =>
    intro cs h
    cases cs with
    | nil => rfl
    | cons c t =>
      have hlen : t.length ≤ f := by simpa using h
      by_cases hc : c = a
      · subst hc
        simp [pyReplaceGo, List.isPrefixOf, ih t hlen]
      · have hac : ¬ a = c := fun hh => hc hh.symm
        simp [pyReplaceGo, List.isPrefixOf, hc, hac, ih t hlen]

theorem pyReplace_single (s pat rep : String) (a b : Char)
    (hp : pat.data = [a]) (hr : rep.data = [b]) :
    pyReplace s pat rep = String.mk (s.data.map (fun c => if c = a then b else c)) := by
  unfold pyReplace
  rw [hp, hr, pyReplaceGo_single a b s.data.length s.data (le_refl _)]

theorem pyReplaceGo_single_del (a : Char) :
    ∀ (n : Nat) (cs : List Char), cs.length ≤ n →
      pyReplaceGo [a] [] n cs = cs.filter (fun c => c != a) := by
  intro n
  induction n with
  | zero =>
    intro cs h
    cases cs with
    | nil => rfl
    | cons c t => simp at h
  | succ f ih =>
    intro cs h
    cases cs with
    | nil => rfl
    | cons c t =>
      have hlen : t.length ≤ f := by simpa using h
      by_cases hc : c = a
      · subst hc
        simp [pyReplaceGo, List.isPrefixOf, ih t hlen]
      · have hac : ¬ a = c := fun hh => hc hh.symm
        simp [pyReplaceGo, List.isPrefixOf, hc, hac, ih t hlen]

theorem pyReplace_single_del (s pat : String) (a : Char) (hp : pat.data = [a]) :
    pyReplace s pat "" = String.mk (s.data.filter (fun c => c != a)) := by
  unfold pyReplace
  rw [hp]
  rw [show ("" : String).data = [] from rfl]
  rw [pyReplaceGo_single_del a s.data.length s.data (le_refl _)]

theorem snakeCaseChar_chain (c : Char) :
    (if (if (if Char.toLower c = ' ' then '_' else Char.toLower c) = '/' then '_'
        else if Char.toLower c = ' ' then '_' else Char.toLower c) = '-' then '_'
      else if (if Char.toLower c = ' ' then '_' else Char.toLower c) = '/' then '_'
        else if Char.toLower c = ' ' then '_' else Char.toLower c)
      = snakeCaseChar c := by
  unfold snakeCaseChar
  by_cases h1 : Char.toLower c = ' '
  · rw [h1]; decide
  by_cases h2 : Char.toLower c = '/'
  · rw [h2]; decide
  by_cases h3 : Char.toLower c = '-'
  · rw [h3]; decide
  simp [h1, h2, h3]

/-!
### The TAX traversal lemma
-/

theorem parseGo_tax_main (pre post : List String) (v : String) :
    ∀ d : VehicleData, (∀ l ∈ pre, ¬ pyStrip l = "TAX") →
      (∀ l ∈ post, ¬ pyStrip l = "TAX") →
      scanExpiryWindow (post.take 3) = some v →
      (parseVehicleInfoFastGo d (pre ++ "TAX" :: post)).tax_expiry = some v := by
  induction pre with
  | nil =>
    intro d _ hpost hscan
    rw [List.nil_append]
    have hgo : parseVehicleInfoFastGo d ("TAX" :: post)
        = parseVehicleInfoFastGo (stepLine d "TAX" post) post := rfl
    rw [hgo, parseGo_tax_preserve post _ hpost, stepLine_tax_set d post v hscan]
    rfl
  | cons p pre' ih =>
    intro d hpre hpost hscan
    have hgo : parseVehicleInfoFastGo d ((p :: pre') ++ "TAX" :: post)
        = parseVehicleInfoFastGo (stepLine d p (pre' ++ "TAX" :: post))
            (pre' ++ "TAX" :: post) := rfl
    rw [hgo]
    exact ih _ (fun l hl => hpre l (List.mem_cons_of_mem p hl)) hpost hscan

/-!
## Claim theorems
-/

/-- C1: for every document whose full text contains (case-insensitively)
any of the blocking phrases, `_extract_results_fast` short-circuits to the
`Blocked` outcome, which is distinct from both `EmptyResult` and
`Success`, regardless of any extractable fields the document contains. -/
theorem C1_blocking_short_circuits (text : String)
    (h : blockingPhrases.any (fun p => pyContains (pyLower text) p) = true) :
    classifyResult (extractResultsFast text) = Outcome.Blocked ∧
    ¬ Outcome.Blocked = Outcome.EmptyResult ∧
    ¬ Outcome.Blocked = Outcome.Success := by
  refine ⟨?_, by decide, by decide⟩
  unfold extractResultsFast
  rw [if_pos h]
  rfl

/-- Witness for C1 on a concrete blocked document that also carries an
extractable field line. -/
theorem C1_blocking_short_circuits_witness :
    classifyResult (extractResultsFast "Access Denied\nFuel Type Petrol") = Outcome.Blocked ∧
    ¬ Outcome.Blocked = Outcome.EmptyResult ∧
    ¬ Outcome.Blocked = Outcome.Success :=
  C1_blocking_short_circuits "Access Denied\nFuel Type Petrol" (by decide)

/-- C2 counterexample: `clean_text` is not idempotent.  Removing the
disallowed `@` from `"@ a"` leaves a leading space, which a second pass
strips away. -/
theorem C2_counterexample_clean_text :
    cleanText "@ a" = " a" ∧ cleanText (cleanText "@ a") = "a" ∧
    ¬ cleanText (cleanText "@ a") = cleanText "@ a" := by decide

/-- C2 (amended): `clean_text` is idempotent on every string all of whose
characters belong to the kept class `[\w\s\-\.\,\(\)£%/]`; in general the
removal of other characters can expose leading, trailing or doubled
whitespace, so unrestricted idempotence fails. -/
theorem C2_clean_text_idempotent_on_kept (s : String)
    (h : ∀ c ∈ s.data, allowedChar c = true) :
    cleanText (cleanText s) = cleanText s :=
  congrArg String.mk (cleanTextL_idem s.data h)

/-- Witness for C2 (amended) at a concrete in-class string. -/
theorem C2_clean_text_idempotent_on_kept_witness :
    cleanText (cleanText "  Ford   Focus 1.4, (75%)  ") = cleanText "  Ford   Focus 1.4, (75%)  " :=
  C2_clean_text_idempotent_on_kept "  Ford   Focus 1.4, (75%)  " (by decide)

/-- C3 counterexample: the document has the line `"TAX"` followed within
the next 3 lines by `"Expires: 01 Jul 2025"`, yet the extracted
`tax_expiry` is `"05 Jan 2020"`: the window scan stops at the first
`Expires:`/`Expired:` line that parses. -/
theorem C3_counterexample_tax_expiry :
    (["TAX", "Expired: 05 Jan 2020", "Expires: 01 Jul 2025"] : List String)[0]? = some "TAX" ∧
    (["TAX", "Expired: 05 Jan 2020", "Expires: 01 Jul 2025"] : List String)[2]?
      = some "Expires: 01 Jul 2025" ∧
    ¬ (parseVehicleInfoFast emptyVehicleData
        ["TAX", "Expired: 05 Jan 2020", "Expires: 01 Jul 2025"]).tax_expiry
      = some "01 Jul 2025" := by decide

/-- C3 (amended): for every document whose only line equal (after
trimming) to `"TAX"` is followed within the next 3 lines by
`"Expires: 01 Jul 2025"`, with no earlier line of that window containing
`"Expires:"` or `"Expired:"`, the extracted record has
`tax_mot.tax_expiry == "01 Jul 2025"`. -/
theorem C3_tax_expiry_unique_tax (pre post w1 w2 : List String)
    (hpre : ∀ l ∈ pre, ¬ pyStrip l = "TAX")
    (hpost : ∀ l ∈ post, ¬ pyStrip l = "TAX")
    (hw : post.take 3 = w1 ++ "Expires: 01 Jul 2025" :: w2)
    (hw1 : ∀ l ∈ w1, pyContains l "Expires:" = false ∧ pyContains l "Expired:" = false) :
    (parseVehicleInfoFast emptyVehicleData (pre ++ "TAX" :: post)).tax_expiry
      = some "01 Jul 2025" := by
  have hscan : scanExpiryWindow (post.take 3) = some "01 Jul 2025" := by
    rw [hw]
    exact scanExpiryWindow_found w1 w2 hw1
  exact parseGo_tax_main pre post _ emptyVehicleData hpre hpost hscan

/-- Witness for C3 (amended) on a concrete document. -/
theorem C3_tax_expiry_unique_tax_witness :
    (parseVehicleInfoFast emptyVehicleData
        (["JEEP COMPASS"] ++ "TAX" :: ["Expires: 01 Jul 2025", "MOT"])).tax_expiry
      = some "01 Jul 2025" :=
  C3_tax_expiry_unique_tax ["JEEP COMPASS"] ["Expires: 01 Jul 2025", "MOT"] [] ["MOT"]
    (by decide) (by decide) (by decide) (by decide)

/-- C4 counterexample: first-writer-wins fails for fields other than the
make.  Extending the document with a second colour line overwrites the
colour set by the first pass. -/
theorem C4_counterexample_first_writer :
    (parseVehicleInfoFast emptyVehicleData ["Primary Colour Red"]).color = some "Red" ∧
    ¬ (parseVehicleInfoFast (parseVehicleInfoFast emptyVehicleData ["Primary Colour Red"])
        ["Primary Colour Red", "Primary Colour Blue"]).color = some "Red" := by decide

/-- C4 (amended): first-writer-wins holds for the make field only — it is
the one assignment guarded by `if not ... get('make')` — so a make set by
the first pass survives any second pass; other fields (colour, fuel type,
tax expiry, ...) are overwritten by later passes, as the counterexample
shows. -/
theorem C4_make_first_writer_wins (lines lines2 : List String) (v : String)
    (h : (parseVehicleInfoFast emptyVehicleData lines).make = some v) :
    (parseVehicleInfoFast (parseVehicleInfoFast emptyVehicleData lines) lines2).make
      = some v := by
  have htr : truthy (parseVehicleInfoFast emptyVehicleData lines).make = true := by
    rcases parseGo_make_cases lines emptyVehicleData with hsame | ⟨b, hb, hbe⟩
    · have hsame' : (parseVehicleInfoFast emptyVehicleData lines).make
          = emptyVehicleData.make := hsame
      rw [h] at hsame'
      exact Option.noConfusion hsame'
    · have hbe' : (parseVehicleInfoFast emptyVehicleData lines).make = some b := hbe
      rw [h] at hbe'
      have hvb : v = b := Option.some.inj hbe'
      rw [h]
      show truthy (some v) = true
      rw [hvb]
      have hne := brands_not_empty b hb
      simp [truthy, hne]
  exact (parseGo_make_preserve lines2 _ htr).trans h

/-- Witness for C4 (amended): a make extracted on the first pass is kept
across a second pass over the extended document. -/
theorem C4_make_first_writer_wins_witness :
    (parseVehicleInfoFast (parseVehicleInfoFast emptyVehicleData ["JEEP COMPASS"])
        ["JEEP COMPASS", "FORD FOCUS"]).make = some "JEEP" :=
  C4_make_first_writer_wins ["JEEP COMPASS"] ["JEEP COMPASS", "FORD FOCUS"] "JEEP" (by decide)

/-- C5: the explicit not-found markers take precedence — any document
containing `"No Vehicle Found"` or `"Please Try Again"` yields the
not-found result before any field extraction is attempted. -/
theorem C5_not_found_precedence (text : String)
    (h : pyContains text "No Vehicle Found" = true ∨
      pyContains text "Please Try Again" = true) :
    fastScrapeVehicleData text = FastResult.notFound := by
  unfold fastScrapeVehicleData
  rcases h with h | h
  · rw [if_pos (by rw [h]; simp)]
  · rw [if_pos (by rw [h]; simp)]

/-- Witness for C5 on a document that also carries extractable fields. -/
theorem C5_not_found_precedence_witness :
    fastScrapeVehicleData "No Vehicle Found\nFuel Type\nPetrol" = FastResult.notFound :=
  C5_not_found_precedence "No Vehicle Found\nFuel Type\nPetrol" (Or.inl (by decide))

/-- C6: when make is absent and the present model contains `"compass"`
case-insensitively, the aggregation step infers `make = "Jeep"` from the
static table; and the table is consulted only when make is absent, so a
make found directly is never replaced. -/
theorem C6_make_inference :
    (∀ (d : VehicleData) (m : String), d.make = none → d.model = some m →
      m.isEmpty = false → pyContains (pyLower m) "compass" = true →
      (applyMakeInference d).make = some "Jeep") ∧
    (∀ (d : VehicleData) (v : String), d.make = some v → v.isEmpty = false →
      (applyMakeInference d).make = some v) := by
  constructor
  · intro d m hmk hmd hne hc
    unfold applyMakeInference
    rw [if_pos (by rw [hmk, hmd]; simp [truthy, hne])]
    unfold inferMakeFromModel
    rw [hmd]
    have hfind : modelToMake.find?
        (fun p => pyContains (pyLower ((some m).getD "")) p.1)
        = some ("compass", "Jeep") := by
      unfold modelToMake
      exact List.find?_cons_of_pos _ (by simpa using hc)
    rw [hfind]
  · intro d v hv hne
    unfold applyMakeInference
    rw [if_neg (by rw [hv]; simp [truthy, hne])]
    exact hv

/-- Witness for C6 at concrete records. -/
theorem C6_make_inference_witness :
    (applyMakeInference { emptyVehicleData with model := some "Compass" }).make
      = some "Jeep" ∧
    (applyMakeInference
        { emptyVehicleData with make := some "FORD", model := some "Compass" }).make
      = some "FORD" :=
  ⟨C6_make_inference.1 { emptyVehicleData with model := some "Compass" } "Compass"
      rfl rfl (by decide) (by decide),
   C6_make_inference.2 { emptyVehicleData with make := some "FORD", model := some "Compass" }
      "FORD" rfl (by decide)⟩

/-- C7: the formatter for freshly extracted records and the formatter for
persisted records produce exactly the same section names and, per
section, exactly the same field keys, for every pair of inputs. -/
theorem C7_formatter_key_shapes_agree (d : VehicleData) (r : DbRecord) :
    responseKeyShape (formatCompleteVehicleResponse d)
      = responseKeyShape (formatDatabaseVehicleResponse r) := rfl

/-- C8 counterexample: `_normalize_key` does not strip — a leading space
becomes `"_"` instead of being removed — and the enhanced variant also
deletes parentheses, so neither matches the claimed
lowercase-strip-replace contract. -/
theorem C8_counterexample_normalize_key :
    normalizeKey " a" = "_a" ∧ claimNormalizeKey " a" = "a" ∧
    ¬ normalizeKey " a" = claimNormalizeKey " a" ∧
    normalizeKeyEnhanced "Power (BHP)" = "power_bhp" ∧
    ¬ normalizeKeyEnhanced "Power (BHP)" = claimNormalizeKey "Power (BHP)" := by decide

/-- C8 (amended): `_normalize_key` lowercases and replaces every space,
`/` and `-` (including leading and trailing ones) by `_`, with no
stripping; the `enhanced_scraper` variant additionally removes `(` and
`)`. -/
theorem C8_normalize_key_no_strip (key : String) :
    normalizeKey key = String.mk (key.data.map snakeCaseChar) ∧
    normalizeKeyEnhanced key
      = String.mk (((key.data.map snakeCaseChar).filter (fun c => c != '(')).filter
          (fun c => c != ')')) := by
  have h1 : normalizeKey key = String.mk (key.data.map snakeCaseChar) := by
    unfold normalizeKey
    rw [pyReplace_single (pyLower key) " " "_" ' ' '_' rfl rfl]
    rw [pyReplace_single _ "/" "_" '/' '_' rfl rfl]
    rw [pyReplace_single _ "-" "_" '-' '_' rfl rfl]
    show String.mk ((((key.data.map Char.toLower).map _).map _).map _) = _
    rw [List.map_map, List.map_map, List.map_map]
    have hfun : ((((fun c => if c = '-' then '_' else c) ∘ fun c => if c = '/' then '_' else c)
        ∘ fun c => if c = ' ' then '_' else c) ∘ Char.toLower) = snakeCaseChar := by
      funext c
      exact snakeCaseChar_chain c
    rw [hfun]
  refine ⟨h1, ?_⟩
  unfold normalizeKeyEnhanced
  rw [h1]
  rw [pyReplace_single_del _ "(" '(' rfl]
  rw [pyReplace_single_del _ ")" ')' rfl]

/-- C9 counterexample: `total_keepers` is stored through `int(...)`, so a
populated record can hold a non-string value. -/
theorem C9_counterexample_total_keepers_int :
    ("total_keepers", PyVal.int 3)
        ∈ vehicleFields (parseVehicleInfoFast emptyVehicleData ["Total Keepers", "3"]) ∧
    (PyVal.int 3).isStr = false := by decide

/-- C9 (amended): every populated field of a record produced by the line
extractor is a string except `additional.total_keepers`, which the code
stores as an integer (`int(keepers_match.group(1))`); the days-left
fields, also integer-typed where the selenium scraper sets them, are never
populated by this extractor. -/
theorem C9_fields_strings_except_keepers (lines : List String) (p : String × PyVal)
    (hp : p ∈ vehicleFields (parseVehicleInfoFast emptyVehicleData lines))
    (hk : ¬ p.1 = "total_keepers") : p.2.isStr = true := by
  have h1 : (parseVehicleInfoFast emptyVehicleData lines).tax_days_left = none :=
    (parseGo_days_preserve lines emptyVehicleData).1
  have h2 : (parseVehicleInfoFast emptyVehicleData lines).mot_days_left = none :=
    (parseGo_days_preserve lines emptyVehicleData).2
  unfold vehicleFields at hp
  rw [h1, h2] at hp
  rw [show natEntry "tax_days_left" (none : Option Nat) = [] from rfl,
    show natEntry "mot_days_left" (none : Option Nat) = [] from rfl] at hp
  simp only [List.mem_append, or_assoc] at hp
  rcases hp with h|h|h|h|h|h|h|h|h|h|h|h|h|h|h|h|h|h|h|h|h|h|h|h|h|h|h|h|h
  all_goals first
    | exact strEntry_isStr _ _ _ h
    | exact absurd (natEntry_name _ _ _ h) hk
    | exact absurd h (List.not_mem_nil _)

/-- Witness for C9 (amended) at a concrete extracted field. -/
theorem C9_fields_strings_except_keepers_witness :
    (PyVal.str "Petrol").isStr = true :=
  C9_fields_strings_except_keepers ["Fuel Type Petrol"] ("fuel_type", PyVal.str "Petrol")
    (by decide) (by decide)

/-- C10: the empty document yields the `EmptyResult` outcome (all total
functions here, so no exception is possible), not `Success`, in both the
optimized extractor and the fast API extractor. -/
theorem C10_empty_document_empty_result :
    extractResultsFast "" = ExtractResult.data emptyVehicleData ∧
    classifyResult (extractResultsFast "") = Outcome.EmptyResult ∧
    ¬ classifyResult (extractResultsFast "") = Outcome.Success ∧
    fastScrapeVehicleData "" = FastResult.data emptyVehicleData := by decide

end VRM
